import Mathlib

/-!
Verification of the CS-330 `SceneManager` module
(`7-1_FinalProjectMilestones/Source/SceneManager.cpp`).

The C++ class is shallowly embedded as pure Lean functions.  The scalar
type of colors, angles and matrix entries (C++ `float`) is kept abstract
as a type parameter `α`; the registry and shader-binding logic never
computes with scalars, so every claim can be checked at `α := ℚ`, while
trigonometric functions are passed in as explicit parameters `cosf`,
`sinf` (mirroring the C library's `cos`/`sin` over `float`).

Side effects are made explicit:
* OpenGL calls (`glGenTextures`, `glBindTexture`, `glActiveTexture`, ...)
  become a trace of `GLCall` values, with a small interpreter
  `runGLCalls` giving the effect of a trace on the texture-unit state;
* shader-uniform setters (`setIntValue`, `setVec4Value`, ...) become a
  trace of `UniformWrite` values, with `applyWrites` giving the effect
  of a trace on the named-uniform store.
-/

namespace CS330

/-- One entry of the texture registry (`m_textureIDs[i]` in the C++):
an OpenGL texture name and the human-readable tag. -/
structure TextureEntry where
  ID : Nat
  tag : String
deriving DecidableEq, Repr

/-- One entry of the material registry (`OBJECT_MATERIAL` in the C++). -/
structure OBJECT_MATERIAL (α : Type) where
  diffuseColor : α × α × α
  specularColor : α × α × α
  shininess : α
  tag : String
deriving DecidableEq, Repr

/-- The decoded result of `stbi_load`: width, height and channel count.
The pixel buffer itself is irrelevant to the registry logic. -/
structure ImageData where
  width : Int
  height : Int
  colorChannels : Int
deriving DecidableEq, Repr

/-- The state of a `SceneManager` object: whether `m_pShaderManager`
is non-NULL, the loaded textures (`m_textureIDs[0..m_loadedTextures)`,
so `m_loadedTextures` is the list length), and `m_objectMaterials`. -/
structure SceneManager (α : Type) where
  hasShaderManager : Bool
  textureIDs : List TextureEntry
  objectMaterials : List (OBJECT_MATERIAL α)
deriving DecidableEq, Repr

/-- Texture-parameter names used by `CreateGLTexture`
(`GL_TEXTURE_WRAP_S`, `GL_TEXTURE_WRAP_T`, `GL_TEXTURE_MIN_FILTER`,
`GL_TEXTURE_MAG_FILTER`). -/
inductive TexParamName where
  | wrapS | wrapT | minFilter | magFilter
deriving DecidableEq, Repr

/-- Texture-parameter values used by `CreateGLTexture`
(`GL_REPEAT`, `GL_LINEAR`). -/
inductive TexParamValue where
  | repeatWrap | linear
deriving DecidableEq, Repr

/-- The OpenGL calls issued by the texture-registry methods.
`deleteTextures` models `glDeleteTextures`, part of the backend API
(the spec's "backend delete/free"); whether the code ever issues it is
exactly what claim C4 is about. -/
inductive GLCall where
  | genTextures (n : Nat)
  | deleteTextures (n : Nat)
  | bindTexture (n : Nat)
  | activeTexture (unit : Nat)
  | texParam (pname : TexParamName) (param : TexParamValue)
  | texImage2D (channels : Int)
  | generateMipmap
deriving DecidableEq, Repr

def GLCall.isBindTexture : GLCall → Bool
  | .bindTexture _ => true
  | _ => false

def GLCall.isDeleteTextures : GLCall → Bool
  | .deleteTextures _ => true
  | _ => false

/-- 4x4 matrices over the scalar type, in ordinary mathematical (row,
column) convention.  glm stores matrices column-major (`m[col][row]`);
the embedding below writes entry `(i, j)` for glm's `m[j][i]`, and glm's
`operator*` is the ordinary matrix product in this convention. -/
abbrev Mat4 (α : Type) := Matrix (Fin 4) (Fin 4) α

/-- A value pushed into a named shader uniform by `ShaderManager`'s
setters (`setIntValue`, `setFloatValue`, `setVec2Value`, `setVec3Value`,
`setVec4Value`, `setMat4Value`, `setSampler2DValue`). -/
inductive UniformValue (α : Type) where
  | intVal (v : Int)
  | floatVal (v : α)
  | vec2Val (v : α × α)
  | vec3Val (v : α × α × α)
  | vec4Val (v : α × α × α × α)
  | mat4Val (m : Mat4 α)
  | sampler2DVal (v : Int)

/-- One shader-uniform write: a uniform name and the value stored. -/
structure UniformWrite (α : Type) where
  name : String
  value : UniformValue α

/-- The named-uniform store of the active shader program. -/
abbrev ShaderState (α : Type) := String → Option (UniformValue α)

def applyWrite {α : Type} (st : ShaderState α) (w : UniformWrite α) : ShaderState α :=
  fun n => if n = w.name then some w.value else st n

def applyWrites {α : Type} (st : ShaderState α) (ws : List (UniformWrite α)) : ShaderState α :=
  ws.foldl applyWrite st

/-- The texture-unit state of the GL context: the currently active
texture unit and the 2D texture bound at each unit. -/
structure GLTextureState where
  activeUnit : Nat
  bound2D : Nat → Option Nat

def runGLCall (g : GLTextureState) : GLCall → GLTextureState
  | .activeTexture u => { g with activeUnit := u }
  | .bindTexture n =>
      { g with bound2D := fun u => if u = g.activeUnit then some n else g.bound2D u }
  | _ => g

def runGLCalls (g : GLTextureState) (cs : List GLCall) : GLTextureState :=
  cs.foldl runGLCall g

/-! ### Texture registry -/

/-- `SceneManager::CreateGLTexture(filename, tag)`.  Image decoding
(`stbi_load`) is abstracted as the function `decode`; the fresh texture
name produced by `glGenTextures` is the parameter `genID`.  Returns the
C++ return value, the new object state, and the GL-call trace.  On a
channel count other than 3 or 4 the C++ returns `false` from inside the
`if (image)` branch: the texture object was already generated and its
parameters set, but no image is uploaded and no registry entry is made. -/
def CreateGLTexture {α : Type} (decode : String → Option ImageData) (genID : Nat)
    (s : SceneManager α) (filename tag : String) :
    Bool × SceneManager α × List GLCall :=
  match decode filename with
  | some image =>
      let pre : List GLCall :=
        [.genTextures genID, .bindTexture genID,
         .texParam .wrapS .repeatWrap, .texParam .wrapT .repeatWrap,
         .texParam .minFilter .linear, .texParam .magFilter .linear]
      if image.colorChannels = 3 then
        (true, { s with textureIDs := s.textureIDs ++ [⟨genID, tag⟩] },
          pre ++ [.texImage2D 3, .generateMipmap, .bindTexture 0])
      else if image.colorChannels = 4 then
        (true, { s with textureIDs := s.textureIDs ++ [⟨genID, tag⟩] },
          pre ++ [.texImage2D 4, .generateMipmap, .bindTexture 0])
      else
        (false, s, pre)
  | none => (false, s, [])

/-- The loop body of `SceneManager::BindGLTextures`: for
`i = k, k+1, ...` over the remaining entries, issue
`glActiveTexture(GL_TEXTURE0 + i); glBindTexture(GL_TEXTURE_2D, m_textureIDs[i].ID)`. -/
def bindLoop : Nat → List TextureEntry → List GLCall
  | _, [] => []
  | k, e :: rest => .activeTexture k :: .bindTexture e.ID :: bindLoop (k + 1) rest

/-- `SceneManager::BindGLTextures()`: the GL-call trace of the loop. -/
def BindGLTextures {α : Type} (s : SceneManager α) : List GLCall :=
  bindLoop 0 s.textureIDs

/-- The loop body of `SceneManager::DestroyGLTextures`: for each entry
the C++ executes `glGenTextures(1, &m_textureIDs[i].ID)`, generating a
fresh texture name (supplied here by `fresh i`) and storing it into the
entry.  Returns the updated entries and the GL-call trace. -/
def destroyLoop (fresh : Nat → Nat) : Nat → List TextureEntry → List TextureEntry × List GLCall
  | _, [] => ([], [])
  | k, e :: rest =>
      let r := destroyLoop fresh (k + 1) rest
      ({ e with ID := fresh k } :: r.1, .genTextures (fresh k) :: r.2)

/-- `SceneManager::DestroyGLTextures()`. -/
def DestroyGLTextures {α : Type} (fresh : Nat → Nat) (s : SceneManager α) :
    SceneManager α × List GLCall :=
  let r := destroyLoop fresh 0 s.textureIDs
  ({ s with textureIDs := r.1 }, r.2)

/-- The while loop of `SceneManager::FindTextureID`: scan from the front,
return the first matching entry's ID, `-1` if none matches. -/
def findTextureIDLoop : List TextureEntry → String → Int
  | [], _ => -1
  | e :: rest, tag => if e.tag = tag then (e.ID : Int) else findTextureIDLoop rest tag

/-- `SceneManager::FindTextureID(tag)`. -/
def FindTextureID {α : Type} (s : SceneManager α) (tag : String) : Int :=
  findTextureIDLoop s.textureIDs tag

/-- The while loop of `SceneManager::FindTextureSlot`: scan from the
front carrying the index, return the first matching index, `-1` if none
matches. -/
def findTextureSlotLoop : List TextureEntry → String → Nat → Int
  | [], _, _ => -1
  | e :: rest, tag, index =>
      if e.tag = tag then (index : Int) else findTextureSlotLoop rest tag (index + 1)

/-- `SceneManager::FindTextureSlot(tag)`. -/
def FindTextureSlot {α : Type} (s : SceneManager α) (tag : String) : Int :=
  findTextureSlotLoop s.textureIDs tag 0

/-! ### Material registry -/

/-- The field copies performed when `FindMaterial`'s while loop hits a
matching entry: `diffuseColor`, `specularColor` and `shininess` of the
match are copied into the out-parameter; its `tag` is not touched. -/
def copyMaterial {α : Type} (dst src : OBJECT_MATERIAL α) : OBJECT_MATERIAL α :=
  { dst with
      diffuseColor := src.diffuseColor
      specularColor := src.specularColor
      shininess := src.shininess }

/-- The while loop of `SceneManager::FindMaterial`: scan from the front,
on the first match copy the material fields into the out-parameter and
stop; if nothing matches the out-parameter is left as it was. -/
def findMaterialLoop {α : Type} :
    List (OBJECT_MATERIAL α) → String → OBJECT_MATERIAL α → OBJECT_MATERIAL α
  | [], _, material => material
  | m :: rest, tag, material =>
      if m.tag = tag then copyMaterial material m
      else findMaterialLoop rest tag material

/-- `SceneManager::FindMaterial(tag, material)`: the returned `Bool` and
the final value of the by-reference out-parameter `material`.  Note the
C++ returns `true` whenever `m_objectMaterials` is non-empty, whether or
not the loop found a match. -/
def FindMaterial {α : Type} (s : SceneManager α) (tag : String)
    (material : OBJECT_MATERIAL α) : Bool × OBJECT_MATERIAL α :=
  if s.objectMaterials.length = 0 then (false, material)
  else (true, findMaterialLoop s.objectMaterials tag material)

/-! ### Transform composer -/

/-- `glm::radians(degrees)` = `degrees * (pi / 180)`; the value of the
C library's `pi` over the scalar type is the parameter `piv`. -/
def radians {α : Type} [Field α] (piv : α) (degrees : α) : α :=
  degrees * (piv / 180)

/-- `glm::scale(v)`. -/
def glmScale {α : Type} [CommRing α] (v : α × α × α) : Mat4 α :=
  !![v.1, 0, 0, 0;
     0, v.2.1, 0, 0;
     0, 0, v.2.2, 0;
     0, 0, 0, 1]

/-- `glm::translate(v)`. -/
def glmTranslate {α : Type} [CommRing α] (v : α × α × α) : Mat4 α :=
  !![1, 0, 0, v.1;
     0, 1, 0, v.2.1;
     0, 0, 1, v.2.2;
     0, 0, 0, 1]

/-- `glm::rotate(angle, axis)`: the axis-angle rotation matrix built
from `c = cos(angle)`, `s = sin(angle)` and `temp = (1-c) * axis`, with
glm's column-major entries transposed into (row, column) convention.
glm normalizes the axis first; `SetTransformations` only ever passes the
unit axes `(1,0,0)`, `(0,1,0)`, `(0,0,1)`, for which normalization is
the identity, so the normalization step is omitted here. -/
def glmRotate {α : Type} [CommRing α] (cosf sinf : α → α) (angle : α)
    (axis : α × α × α) : Mat4 α :=
  let c := cosf angle
  let s := sinf angle
  let ax := axis.1
  let ay := axis.2.1
  let az := axis.2.2
  !![c + (1 - c) * ax * ax, (1 - c) * ay * ax - s * az, (1 - c) * az * ax + s * ay, 0;
     (1 - c) * ax * ay + s * az, c + (1 - c) * ay * ay, (1 - c) * az * ay - s * ax, 0;
     (1 - c) * ax * az - s * ay, (1 - c) * ay * az + s * ax, c + (1 - c) * az * az, 0;
     0, 0, 0, 1]

/-- The textbook rotation matrix about the X axis, stated independently
of glm's axis-angle formula (the spec's "rotation matrix for the X axis
built from its angle"). -/
def specRotX {α : Type} [CommRing α] (cosf sinf : α → α) (angle : α) : Mat4 α :=
  !![1, 0, 0, 0;
     0, cosf angle, -(sinf angle), 0;
     0, sinf angle, cosf angle, 0;
     0, 0, 0, 1]

/-- The textbook rotation matrix about the Y axis. -/
def specRotY {α : Type} [CommRing α] (cosf sinf : α → α) (angle : α) : Mat4 α :=
  !![cosf angle, 0, sinf angle, 0;
     0, 1, 0, 0;
     -(sinf angle), 0, cosf angle, 0;
     0, 0, 0, 1]

/-- The textbook rotation matrix about the Z axis. -/
def specRotZ {α : Type} [CommRing α] (cosf sinf : α → α) (angle : α) : Mat4 α :=
  !![cosf angle, -(sinf angle), 0, 0;
     sinf angle, cosf angle, 0, 0;
     0, 0, 1, 0;
     0, 0, 0, 1]

/-! ### Shader state binder -/

/-- `SceneManager::SetTransformations(scaleXYZ, X, Y, Z, positionXYZ)`:
build scale, per-axis rotation (degrees converted to radians) and
translation matrices, compose
`modelView = translation * rotationZ * rotationY * rotationX * scale`,
and, if `m_pShaderManager` is non-NULL, push it into the `"model"`
uniform. -/
def SetTransformations {α : Type} [Field α] (cosf sinf : α → α) (piv : α)
    (s : SceneManager α) (scaleXYZ : α × α × α)
    (XrotationDegrees YrotationDegrees ZrotationDegrees : α)
    (positionXYZ : α × α × α) : List (UniformWrite α) :=
  let scale := glmScale scaleXYZ
  let rotationX := glmRotate cosf sinf (radians piv XrotationDegrees) (1, 0, 0)
  let rotationY := glmRotate cosf sinf (radians piv YrotationDegrees) (0, 1, 0)
  let rotationZ := glmRotate cosf sinf (radians piv ZrotationDegrees) (0, 0, 1)
  let translation := glmTranslate positionXYZ
  let modelView := translation * rotationZ * rotationY * rotationX * scale
  if s.hasShaderManager then [⟨"model", .mat4Val modelView⟩] else []

/-- `SceneManager::SetShaderColor(r, g, b, a)`: if `m_pShaderManager`
is non-NULL, write `bUseTexture := false` (C++ converts the `bool` to
`int` 0 for `setIntValue`) and the RGBA color into `objectColor`. -/
def SetShaderColor {α : Type} (s : SceneManager α)
    (redColorValue greenColorValue blueColorValue alphaValue : α) :
    List (UniformWrite α) :=
  if s.hasShaderManager then
    [⟨"bUseTexture", .intVal 0⟩,
     ⟨"objectColor", .vec4Val (redColorValue, greenColorValue, blueColorValue, alphaValue)⟩]
  else []

/-- `SceneManager::SetShaderTexture(textureTag)`: if `m_pShaderManager`
is non-NULL, write `bUseTexture := true` (`int` 1) and the slot returned
by `FindTextureSlot` into the sampler uniform `objectTexture`. -/
def SetShaderTexture {α : Type} (s : SceneManager α) (textureTag : String) :
    List (UniformWrite α) :=
  if s.hasShaderManager then
    [⟨"bUseTexture", .intVal 1⟩,
     ⟨"objectTexture", .sampler2DVal (FindTextureSlot s textureTag)⟩]
  else []

/-- `SceneManager::SetTextureUVScale(u, v)`: if `m_pShaderManager` is
non-NULL, write the pair into the `UVscale` uniform. -/
def SetTextureUVScale {α : Type} (s : SceneManager α) (u v : α) :
    List (UniformWrite α) :=
  if s.hasShaderManager then [⟨"UVscale", .vec2Val (u, v)⟩] else []

/-- `SceneManager::SetShaderMaterial(materialTag)`.  The local variable
`OBJECT_MATERIAL material;` is default-constructed with unspecified
member values; it is modelled by the parameter `localMat`.  If the
registry is non-empty and `FindMaterial` returned `true`, the three
material uniforms are written from the (possibly unpopulated)
out-parameter.  Note the C++ performs no NULL check on
`m_pShaderManager` here. -/
def SetShaderMaterial {α : Type} (localMat : OBJECT_MATERIAL α)
    (s : SceneManager α) (materialTag : String) : List (UniformWrite α) :=
  if 0 < s.objectMaterials.length then
    let r := FindMaterial s materialTag localMat
    if r.1 then
      [⟨"material.diffuseColor", .vec3Val r.2.diffuseColor⟩,
       ⟨"material.specularColor", .vec3Val r.2.specularColor⟩,
       ⟨"material.shininess", .floatVal r.2.shininess⟩]
    else []
  else []

/-- The fixed list of the three material-uniform writes issued by
`SetShaderMaterial` when it writes at all. -/
def matWrites {α : Type} (d sp : α × α × α) (sh : α) : List (UniformWrite α) :=
  [⟨"material.diffuseColor", .vec3Val d⟩,
   ⟨"material.specularColor", .vec3Val sp⟩,
   ⟨"material.shininess", .floatVal sh⟩]

/-- A call to one of the two operations that both write the
`bUseTexture` flag, for reasoning about interleavings before a draw. -/
inductive ColorOrTexture (α : Type) where
  | color (r g b a : α)
  | texture (tag : String)

def runColorTexture {α : Type} (s : SceneManager α) :
    ColorOrTexture α → List (UniformWrite α)
  | .color r g b a => SetShaderColor s r g b a
  | .texture tag => SetShaderTexture s tag

/-- The `bUseTexture` value each of the two operations writes. -/
def flagAfter {α : Type} : ColorOrTexture α → Int
  | .color _ _ _ _ => 0
  | .texture _ => 1

/-! ### Concrete sample data for evaluating the definitions -/

/-- The "wood" entry registered by `DefineObjectMaterials`. -/
def woodMat : OBJECT_MATERIAL ℚ :=
  ⟨(6/10, 3/10, 1/10), (2/10, 2/10, 2/10), 10, "wood"⟩

/-- A sample state: shader manager present, two loaded textures, one
registered material. -/
def sampleSM : SceneManager ℚ :=
  ⟨true, [⟨7, "wood"⟩, ⟨9, "fabric"⟩], [woodMat]⟩

/-- A sample state whose shader-manager pointer is NULL. -/
def nullSM : SceneManager ℚ :=
  ⟨false, [⟨7, "wood"⟩], [woodMat]⟩

/-- A default-constructed local `OBJECT_MATERIAL` (the C++ leaves the
members unspecified; any fixed value exhibits the behavior). -/
def localMat0 : OBJECT_MATERIAL ℚ := ⟨(0, 0, 0), (0, 0, 0), 0, ""⟩

/-- A decoder producing a 2-channel image for every path. -/
def decode2 : String → Option ImageData := fun _ => some ⟨8, 8, 2⟩

/-- A decoder producing a 3-channel image for every path. -/
def decode3 : String → Option ImageData := fun _ => some ⟨8, 8, 3⟩

/-- An initial GL texture-unit state with nothing bound. -/
def glInit : GLTextureState := ⟨0, fun _ => none⟩

/-- An empty shader uniform store. -/
def emptyShader : ShaderState ℚ := fun _ => none

/-! ## Lemmas about the lookup loops -/

theorem findTextureIDLoop_not_found :
    ∀ (l : List TextureEntry) (tag : String), (∀ e ∈ l, e.tag ≠ tag) →
      findTextureIDLoop l tag = -1
  | [], _, _ => rfl
  | e :: rest, tag, h => by
      have he : e.tag ≠ tag := h e (List.mem_cons_self e rest)
      have hrest := findTextureIDLoop_not_found rest tag
        (fun x hx => h x (List.mem_cons_of_mem e hx))
      simp [findTextureIDLoop, he, hrest]

theorem findTextureSlotLoop_not_found :
    ∀ (l : List TextureEntry) (tag : String) (k : Nat),
      (∀ e ∈ l, e.tag ≠ tag) → findTextureSlotLoop l tag k = -1
  | [], _, _, _ => rfl
  | e :: rest, tag, k, h => by
      have he : e.tag ≠ tag := h e (List.mem_cons_self e rest)
      have hrest := findTextureSlotLoop_not_found rest tag (k + 1)
        (fun x hx => h x (List.mem_cons_of_mem e hx))
      simp [findTextureSlotLoop, he, hrest]

theorem findTextureIDLoop_found :
    ∀ (pre : List TextureEntry) (e : TextureEntry) (post : List TextureEntry)
      (tag : String), (∀ p ∈ pre, p.tag ≠ tag) → e.tag = tag →
      findTextureIDLoop (pre ++ e :: post) tag = (e.ID : Int)
  | [], e, post, tag, _, he => by simp [findTextureIDLoop, he]
  | p :: pre, e, post, tag, h, he => by
      have hp : p.tag ≠ tag := h p (List.mem_cons_self p pre)
      have hrest := findTextureIDLoop_found pre e post tag
        (fun x hx => h x (List.mem_cons_of_mem p hx)) he
      simp [findTextureIDLoop, hp, hrest]

theorem findTextureSlotLoop_found :
    ∀ (pre : List TextureEntry) (e : TextureEntry) (post : List TextureEntry)
      (tag : String) (k : Nat), (∀ p ∈ pre, p.tag ≠ tag) → e.tag = tag →
      findTextureSlotLoop (pre ++ e :: post) tag k = ((k + pre.length : Nat) : Int)
  | [], e, post, tag, k, _, he => by simp [findTextureSlotLoop, he]
  | p :: pre, e, post, tag, k, h, he => by
      have hp : p.tag ≠ tag := h p (List.mem_cons_self p pre)
      have hrest := findTextureSlotLoop_found pre e post tag (k + 1)
        (fun x hx => h x (List.mem_cons_of_mem p hx)) he
      have hstep : findTextureSlotLoop ((p :: pre) ++ e :: post) tag k
          = findTextureSlotLoop (pre ++ e :: post) tag (k + 1) := by
        simp [findTextureSlotLoop, hp]
      rw [hstep, hrest]
      congr 1
      simp only [List.length_cons]
      omega

theorem findMaterialLoop_not_found {α : Type} :
    ∀ (l : List (OBJECT_MATERIAL α)) (tag : String) (mat : OBJECT_MATERIAL α),
      (∀ m ∈ l, m.tag ≠ tag) → findMaterialLoop l tag mat = mat
  | [], _, _, _ => rfl
  | m :: rest, tag, mat, h => by
      have hm : m.tag ≠ tag := h m (List.mem_cons_self m rest)
      have hrest := findMaterialLoop_not_found rest tag mat
        (fun x hx => h x (List.mem_cons_of_mem m hx))
      simp [findMaterialLoop, hm, hrest]

theorem findMaterialLoop_found {α : Type} :
    ∀ (pre : List (OBJECT_MATERIAL α)) (m : OBJECT_MATERIAL α)
      (post : List (OBJECT_MATERIAL α)) (tag : String) (mat : OBJECT_MATERIAL α),
      (∀ p ∈ pre, p.tag ≠ tag) → m.tag = tag →
      findMaterialLoop (pre ++ m :: post) tag mat = copyMaterial mat m
  | [], m, post, tag, mat, _, hm => by simp [findMaterialLoop, hm]
  | p :: pre, m, post, tag, mat, h, hm => by
      have hp : p.tag ≠ tag := h p (List.mem_cons_self p pre)
      have hrest := findMaterialLoop_found pre m post tag mat
        (fun x hx => h x (List.mem_cons_of_mem p hx)) hm
      simp [findMaterialLoop, hp, hrest]

theorem applyWrites_append {α : Type} (st : ShaderState α)
    (xs ys : List (UniformWrite α)) :
    applyWrites st (xs ++ ys) = applyWrites (applyWrites st xs) ys := by
  simp [applyWrites, List.foldl_append]

theorem bindLoop_countP :
    ∀ (l : List TextureEntry) (k : Nat),
      (bindLoop k l).countP GLCall.isBindTexture = l.length
  | [], _ => rfl
  | e :: rest, k => by
      simp [bindLoop, List.countP_cons, GLCall.isBindTexture,
        bindLoop_countP rest (k + 1)]

theorem runGL_bindLoop_preserve :
    ∀ (l : List TextureEntry) (k : Nat) (g : GLTextureState) (u : Nat),
      (u < k ∨ k + l.length ≤ u) →
      (runGLCalls g (bindLoop k l)).bound2D u = g.bound2D u
  | [], _, _, _, _ => rfl
  | e :: rest, k, g, u, h => by
      have hne : u ≠ k := by
        simp only [List.length_cons] at h
        omega
      have h' : u < k + 1 ∨ (k + 1) + rest.length ≤ u := by
        simp only [List.length_cons] at h
        omega
      simp only [bindLoop, runGLCalls, List.foldl_cons]
      have hrec := runGL_bindLoop_preserve rest (k + 1)
        (runGLCall (runGLCall g (.activeTexture k)) (.bindTexture e.ID)) u h'
      simp only [runGLCalls] at hrec
      rw [hrec]
      simp [runGLCall, hne]

theorem runGL_bindLoop_lookup :
    ∀ (l : List TextureEntry) (k : Nat) (g : GLTextureState) (j : Nat)
      (hj : j < l.length),
      (runGLCalls g (bindLoop k l)).bound2D (k + j) = some (l.get ⟨j, hj⟩).ID
  | [], _, _, j, hj => absurd hj (by simp)
  | e :: rest, k, g, 0, hj => by
      simp only [bindLoop, runGLCalls, List.foldl_cons]
      have hpres := runGL_bindLoop_preserve rest (k + 1)
        (runGLCall (runGLCall g (.activeTexture k)) (.bindTexture e.ID)) (k + 0)
        (Or.inl (by omega))
      simp only [runGLCalls] at hpres
      rw [hpres]
      simp [runGLCall]
  | e :: rest, k, g, j + 1, hj => by
      simp only [bindLoop, runGLCalls, List.foldl_cons]
      have hj' : j < rest.length := by
        simp only [List.length_cons] at hj
        omega
      have hrec := runGL_bindLoop_lookup rest (k + 1)
        (runGLCall (runGLCall g (.activeTexture k)) (.bindTexture e.ID)) j hj'
      simp only [runGLCalls] at hrec
      have hidx : k + (j + 1) = (k + 1) + j := by omega
      rw [hidx, hrec]
      rfl

theorem destroyLoop_no_delete :
    ∀ (fresh : Nat → Nat) (k : Nat) (l : List TextureEntry),
      ((destroyLoop fresh k l).2.all fun c => !c.isDeleteTextures) = true
  | _, _, [] => rfl
  | fresh, k, e :: rest => by
      have hrec := destroyLoop_no_delete fresh (k + 1) rest
      simp only [destroyLoop, List.all_cons, Bool.and_eq_true]
      exact ⟨rfl, hrec⟩

theorem glmRotate_unitX {α : Type} [CommRing α] (cosf sinf : α → α) (θ : α) :
    glmRotate cosf sinf θ (1, 0, 0) = specRotX cosf sinf θ := by
  unfold glmRotate specRotX
  ext i j
  fin_cases i <;> fin_cases j <;> simp

theorem glmRotate_unitY {α : Type} [CommRing α] (cosf sinf : α → α) (θ : α) :
    glmRotate cosf sinf θ (0, 1, 0) = specRotY cosf sinf θ := by
  unfold glmRotate specRotY
  ext i j
  fin_cases i <;> fin_cases j <;> simp

theorem glmRotate_unitZ {α : Type} [CommRing α] (cosf sinf : α → α) (θ : α) :
    glmRotate cosf sinf θ (0, 0, 1) = specRotZ cosf sinf θ := by
  unfold glmRotate specRotZ
  ext i j
  fin_cases i <;> fin_cases j <;> simp

/-! ## Claims -/

/-- C1: for every tag and registry state, `FindMaterial(tag, out)`
returns `false` exactly when the registry is empty; when the registry is
non-empty and no entry's tag matches, it returns `true` with the
out-parameter left unpopulated; when an entry matches, it returns `true`
with the out-parameter carrying the first matching entry's
`diffuseColor`, `specularColor` and `shininess`. -/
theorem C1_findMaterial {α : Type} (s : SceneManager α) (tag : String)
    (mat : OBJECT_MATERIAL α) :
    ((FindMaterial s tag mat).1 = false ↔ s.objectMaterials = []) ∧
    ((∀ m ∈ s.objectMaterials, m.tag ≠ tag) → (FindMaterial s tag mat).2 = mat) ∧
    (∀ (pre : List (OBJECT_MATERIAL α)) (m : OBJECT_MATERIAL α)
        (post : List (OBJECT_MATERIAL α)),
      s.objectMaterials = pre ++ m :: post → (∀ p ∈ pre, p.tag ≠ tag) →
      m.tag = tag → FindMaterial s tag mat = (true, copyMaterial mat m)) := by
  refine ⟨?_, ?_, ?_⟩
  · unfold FindMaterial
    rcases h : s.objectMaterials with _ | ⟨m, rest⟩ <;> simp [h]
  · intro hnone
    unfold FindMaterial
    rcases h : s.objectMaterials with _ | ⟨m, rest⟩
    · simp
    · rw [h] at hnone
      simp [findMaterialLoop_not_found (m :: rest) tag mat hnone]
  · intro pre m post hsplit hpre hm
    unfold FindMaterial
    rw [hsplit]
    simp [findMaterialLoop_found pre m post tag mat hpre hm]

/-- C1 witness: the three cases of `C1_findMaterial` evaluated on the
sample state (registry `[wood]`): lookup of `"glass"` leaves the
out-parameter unpopulated while returning `true`; lookup of `"wood"`
copies the wood entry's fields. -/
theorem C1_findMaterial_witness :
    (FindMaterial sampleSM "glass" localMat0).2 = localMat0 ∧
    FindMaterial sampleSM "wood" localMat0 = (true, copyMaterial localMat0 woodMat) ∧
    ((FindMaterial sampleSM "wood" localMat0).1 = false ↔
      sampleSM.objectMaterials = []) :=
  ⟨(C1_findMaterial sampleSM "glass" localMat0).2.1 (by decide),
   (C1_findMaterial sampleSM "wood" localMat0).2.2 [] woodMat [] rfl
     (by intro p hp; cases hp) rfl,
   (C1_findMaterial sampleSM "wood" localMat0).1⟩

/-- C2 counterexample: on the sample state (non-empty registry, no entry
tagged `"glass"`), `SetShaderMaterial "glass"` does write the three
material uniforms — carrying the unpopulated local material's values —
contradicting the claim that no material uniform is written when the tag
is not found. -/
theorem C2_counterexample :
    (∀ m ∈ sampleSM.objectMaterials, m.tag ≠ "glass") ∧
    SetShaderMaterial localMat0 sampleSM "glass" =
      matWrites (0, 0, 0) (0, 0, 0) 0 ∧
    SetShaderMaterial localMat0 sampleSM "glass" ≠ [] := by
  have h2 : SetShaderMaterial localMat0 sampleSM "glass" =
      matWrites (0, 0, 0) (0, 0, 0) 0 := rfl
  refine ⟨by decide, h2, ?_⟩
  rw [h2]
  simp [matWrites]

/-- C2 amended: `SetShaderMaterial(tag)` writes the three material
uniforms exactly when the registry is non-empty (because `FindMaterial`
returns `true` for every non-empty registry).  When the first matching
entry exists its values are written; when the registry is non-empty but
no entry matches, the uniforms are still written, carrying the
default-constructed local material's (unpopulated) values.  Only with an
empty registry is nothing written. -/
theorem C2_setShaderMaterial {α : Type} (localMat : OBJECT_MATERIAL α)
    (s : SceneManager α) (tag : String) :
    (s.objectMaterials = [] → SetShaderMaterial localMat s tag = []) ∧
    (s.objectMaterials ≠ [] → (∀ m ∈ s.objectMaterials, m.tag ≠ tag) →
      SetShaderMaterial localMat s tag =
        matWrites localMat.diffuseColor localMat.specularColor localMat.shininess) ∧
    (∀ (pre : List (OBJECT_MATERIAL α)) (m : OBJECT_MATERIAL α)
        (post : List (OBJECT_MATERIAL α)),
      s.objectMaterials = pre ++ m :: post → (∀ p ∈ pre, p.tag ≠ tag) →
      m.tag = tag →
      SetShaderMaterial localMat s tag =
        matWrites m.diffuseColor m.specularColor m.shininess) := by
  refine ⟨?_, ?_, ?_⟩
  · intro h
    simp [SetShaderMaterial, h]
  · intro hne hnone
    have hlen : 0 < s.objectMaterials.length := List.length_pos.mpr hne
    simp [SetShaderMaterial, FindMaterial, hlen, Nat.pos_iff_ne_zero.mp hlen,
      findMaterialLoop_not_found s.objectMaterials tag localMat hnone, matWrites]
  · intro pre m post hsplit hpre hm
    have hlen : 0 < s.objectMaterials.length := by
      rw [hsplit]; simp
    simp [SetShaderMaterial, FindMaterial, hlen, Nat.pos_iff_ne_zero.mp hlen,
      hsplit, findMaterialLoop_found pre m post tag localMat hpre hm,
      copyMaterial, matWrites]

/-- C2 witness: the amended statement evaluated on the sample state:
a matched tag writes the wood entry's values, an unmatched tag writes
the local material's values. -/
theorem C2_setShaderMaterial_witness :
    SetShaderMaterial localMat0 sampleSM "wood" =
      matWrites (6/10, 3/10, 1/10) (2/10, 2/10, 2/10) 10 ∧
    SetShaderMaterial localMat0 sampleSM "glass2" =
      matWrites (0, 0, 0) (0, 0, 0) 0 :=
  ⟨(C2_setShaderMaterial localMat0 sampleSM "wood").2.2 [] woodMat [] rfl
     (by intro p hp; cases hp) rfl,
   (C2_setShaderMaterial localMat0 sampleSM "glass2").2.1 (by decide) (by decide)⟩

/-- C6: `FindTextureID` and `FindTextureSlot` both return the sentinel
`-1` when the tag is absent; when the tag's first registration is at
position `k` (i.e. the registry splits as `pre ++ e :: post` with no
match in `pre` and `pre.length = k`), `FindTextureSlot` returns exactly
`k` and `FindTextureID` returns that entry's handle. -/
theorem C6_findTexture {α : Type} (s : SceneManager α) (tag : String) :
    ((∀ e ∈ s.textureIDs, e.tag ≠ tag) →
      FindTextureID s tag = -1 ∧ FindTextureSlot s tag = -1) ∧
    (∀ (pre : List TextureEntry) (e : TextureEntry) (post : List TextureEntry),
      s.textureIDs = pre ++ e :: post → (∀ p ∈ pre, p.tag ≠ tag) → e.tag = tag →
      FindTextureSlot s tag = (pre.length : Int) ∧
      FindTextureID s tag = (e.ID : Int)) := by
  refine ⟨?_, ?_⟩
  · intro hnone
    exact ⟨findTextureIDLoop_not_found s.textureIDs tag hnone,
      findTextureSlotLoop_not_found s.textureIDs tag 0 hnone⟩
  · intro pre e post hsplit hpre he
    constructor
    · unfold FindTextureSlot
      rw [hsplit, findTextureSlotLoop_found pre e post tag 0 hpre he]
      simp
    · unfold FindTextureID
      rw [hsplit]
      exact findTextureIDLoop_found pre e post tag hpre he

/-- C6 witness: on the sample state (`wood` at slot 0 with handle 7,
`fabric` at slot 1 with handle 9), `"fabric"` resolves to slot 1 and
handle 9, and a never-registered tag gives `-1` from both lookups. -/
theorem C6_findTexture_witness :
    (FindTextureSlot sampleSM "fabric" = 1 ∧ FindTextureID sampleSM "fabric" = 9) ∧
    (FindTextureID sampleSM "rug" = -1 ∧ FindTextureSlot sampleSM "rug" = -1) :=
  ⟨by
    have h := (C6_findTexture sampleSM "fabric").2 [⟨7, "wood"⟩] ⟨9, "fabric"⟩ []
      rfl (by decide) rfl
    simpa using h,
   (C6_findTexture sampleSM "rug").1 (by decide)⟩

/-- C7: with a non-NULL shader manager, `SetShaderTexture(tag)` writes
`bUseTexture := true` and the sampler uniform `objectTexture` with the
slot resolved via the texture registry; when the tag is absent the
resolved slot is the sentinel `-1`, passed through to the sampler
uniform rather than rejected. -/
theorem C7_setShaderTexture {α : Type} (s : SceneManager α) (tag : String)
    (hs : s.hasShaderManager = true) :
    SetShaderTexture s tag =
      [⟨"bUseTexture", .intVal 1⟩,
       ⟨"objectTexture", .sampler2DVal (FindTextureSlot s tag)⟩] ∧
    ((∀ e ∈ s.textureIDs, e.tag ≠ tag) → FindTextureSlot s tag = -1) := by
  refine ⟨by simp [SetShaderTexture, hs], ?_⟩
  intro hnone
  exact findTextureSlotLoop_not_found s.textureIDs tag 0 hnone

/-- C7 witness: on the sample state, an unregistered tag is passed
through as sampler value `-1` while the use-texture flag is still set. -/
theorem C7_setShaderTexture_witness :
    SetShaderTexture sampleSM "rug2" =
      [⟨"bUseTexture", .intVal 1⟩,
       ⟨"objectTexture", .sampler2DVal (FindTextureSlot sampleSM "rug2")⟩] ∧
    FindTextureSlot sampleSM "rug2" = -1 :=
  ⟨(C7_setShaderTexture sampleSM "rug2" rfl).1,
   (C7_setShaderTexture sampleSM "rug2" rfl).2 (by decide)⟩

/-- C10: when the shader-manager pointer is NULL, `SetTransformations`,
`SetShaderColor`, `SetShaderTexture` and `SetTextureUVScale` each issue
no uniform write at all, for every input value. -/
theorem C10_nullShader {α : Type} [Field α] (cosf sinf : α → α) (piv : α)
    (s : SceneManager α) (hs : s.hasShaderManager = false) :
    (∀ (sc : α × α × α) (xd yd zd : α) (p : α × α × α),
      SetTransformations cosf sinf piv s sc xd yd zd p = []) ∧
    (∀ r g b a : α, SetShaderColor s r g b a = []) ∧
    (∀ tag : String, SetShaderTexture s tag = []) ∧
    (∀ u v : α, SetTextureUVScale s u v = []) := by
  refine ⟨?_, ?_, ?_, ?_⟩ <;>
    intros <;>
    simp [SetTransformations, SetShaderColor, SetShaderTexture,
      SetTextureUVScale, hs]

/-- C10 witness: the four operations evaluated on a state with a NULL
shader manager each produce no write. -/
theorem C10_nullShader_witness :
    SetTransformations id id 0 nullSM (1, 1, 1) 0 0 0 (0, 0, 0) = [] ∧
    SetShaderColor nullSM 1 1 1 1 = [] ∧
    SetShaderTexture nullSM "wood" = [] ∧
    SetTextureUVScale nullSM 1 1 = [] :=
  ⟨(C10_nullShader id id 0 nullSM rfl).1 (1, 1, 1) 0 0 0 (0, 0, 0),
   (C10_nullShader id id 0 nullSM rfl).2.1 1 1 1 1,
   (C10_nullShader id id 0 nullSM rfl).2.2.1 "wood",
   (C10_nullShader id id 0 nullSM rfl).2.2.2 1 1⟩

/-- C4 (code bug): `DestroyGLTextures` never issues a backend
delete/free: its GL-call trace contains no `glDeleteTextures` for any
registry state — it issues `glGenTextures` once per entry instead,
overwriting each stored handle with a freshly generated texture name, as
evaluated here on the sample state (handles 7 and 9 replaced by fresh
names 100 and 101, nothing deleted). -/
theorem C4_destroyGLTextures_code_bug :
    (∀ (fresh : Nat → Nat) (s : SceneManager ℚ),
      ((DestroyGLTextures fresh s).2.all fun c => !c.isDeleteTextures) = true) ∧
    (DestroyGLTextures (fun i => 100 + i) sampleSM).2 =
      [GLCall.genTextures 100, GLCall.genTextures 101] ∧
    (DestroyGLTextures (fun i => 100 + i) sampleSM).1.textureIDs =
      [⟨100, "wood"⟩, ⟨101, "fabric"⟩] := by
  refine ⟨?_, rfl, rfl⟩
  intro fresh s
  exact destroyLoop_no_delete fresh 0 s.textureIDs

/-- C5: when the image at a path decodes with a channel count that is
neither 3 nor 4, `CreateGLTexture` returns `false` and leaves the object
state (hence the registry and the loaded-texture count) unchanged; when
it decodes with 3 or 4 channels, `CreateGLTexture` returns `true` and
appends exactly one `TextureEntry`, incrementing the count by one. -/
theorem C5_createGLTexture {α : Type} (decode : String → Option ImageData)
    (genID : Nat) (s : SceneManager α) (filename tag : String) (img : ImageData)
    (himg : decode filename = some img) :
    (img.colorChannels ≠ 3 → img.colorChannels ≠ 4 →
      (CreateGLTexture decode genID s filename tag).1 = false ∧
      (CreateGLTexture decode genID s filename tag).2.1 = s) ∧
    (img.colorChannels = 3 ∨ img.colorChannels = 4 →
      (CreateGLTexture decode genID s filename tag).1 = true ∧
      (CreateGLTexture decode genID s filename tag).2.1.textureIDs
        = s.textureIDs ++ [⟨genID, tag⟩] ∧
      (CreateGLTexture decode genID s filename tag).2.1.textureIDs.length
        = s.textureIDs.length + 1) := by
  constructor
  · intro h3 h4
    simp [CreateGLTexture, himg, h3, h4]
  · rintro (h | h) <;> simp [CreateGLTexture, himg, h]

/-- C5 witness: a 2-channel decode fails and leaves the sample state
untouched; a 3-channel decode succeeds and grows the registry by one. -/
theorem C5_createGLTexture_witness :
    ((CreateGLTexture decode2 5 sampleSM "Textures/wood.jpg" "wood").1 = false ∧
      (CreateGLTexture decode2 5 sampleSM "Textures/wood.jpg" "wood").2.1 = sampleSM) ∧
    ((CreateGLTexture decode3 5 sampleSM "Textures/wood.jpg" "wood").1 = true ∧
      (CreateGLTexture decode3 5 sampleSM "Textures/wood.jpg" "wood").2.1.textureIDs.length
        = sampleSM.textureIDs.length + 1) := by
  have hfail := (C5_createGLTexture decode2 5 sampleSM "Textures/wood.jpg" "wood"
    ⟨8, 8, 2⟩ rfl).1 (by decide) (by decide)
  have hok := (C5_createGLTexture decode3 5 sampleSM "Textures/wood.jpg" "wood"
    ⟨8, 8, 3⟩ rfl).2 (Or.inl rfl)
  exact ⟨hfail, hok.1, hok.2.2⟩

/-- C8: after loading `N` textures, `BindGLTextures` issues exactly `N`
`glBindTexture` calls, and running its trace on any GL texture-unit
state leaves unit `i` (for every `i < N`) bound to the handle of the
`i`-th loaded texture, while every unit at index `N` or above keeps its
previous binding. -/
theorem C8_bindGLTextures {α : Type} (s : SceneManager α) (g : GLTextureState) :
    (BindGLTextures s).countP GLCall.isBindTexture = s.textureIDs.length ∧
    (∀ (i : Nat) (h : i < s.textureIDs.length),
      (runGLCalls g (BindGLTextures s)).bound2D i
        = some (s.textureIDs.get ⟨i, h⟩).ID) ∧
    (∀ u : Nat, s.textureIDs.length ≤ u →
      (runGLCalls g (BindGLTextures s)).bound2D u = g.bound2D u) := by
  refine ⟨bindLoop_countP s.textureIDs 0, ?_, ?_⟩
  · intro i h
    have hlook := runGL_bindLoop_lookup s.textureIDs 0 g i h
    simpa [BindGLTextures] using hlook
  · intro u hu
    exact runGL_bindLoop_preserve s.textureIDs 0 g u (Or.inr (by omega))

/-- C8 witness: on the sample state (two textures, handles 7 and 9),
running the `BindGLTextures` trace from an empty GL state binds unit 0
to 7 and unit 1 to 9, leaves unit 5 unbound, and issues exactly two
`glBindTexture` calls. -/
theorem C8_bindGLTextures_witness :
    (runGLCalls glInit (BindGLTextures sampleSM)).bound2D 0 = some 7 ∧
    (runGLCalls glInit (BindGLTextures sampleSM)).bound2D 1 = some 9 ∧
    (runGLCalls glInit (BindGLTextures sampleSM)).bound2D 5 = none ∧
    (BindGLTextures sampleSM).countP GLCall.isBindTexture = 2 := by
  refine ⟨?_, ?_, ?_, ?_⟩
  · simpa [sampleSM] using (C8_bindGLTextures sampleSM glInit).2.1 0 (by decide)
  · simpa [sampleSM] using (C8_bindGLTextures sampleSM glInit).2.1 1 (by decide)
  · simpa [glInit] using (C8_bindGLTextures sampleSM glInit).2.2 5 (by decide)
  · simpa [sampleSM] using (C8_bindGLTextures sampleSM glInit).1

/-- C9: `SetShaderColor` always writes `bUseTexture := false` (int 0)
together with the RGBA color, `SetShaderTexture` always writes
`bUseTexture := true` (int 1); hence for any non-empty interleaving of
the two calls, the value of `bUseTexture` in the resulting shader state
is determined solely by whichever call came last. -/
theorem C9_useTexture_lastWins {α : Type} (s : SceneManager α)
    (hs : s.hasShaderManager = true) :
    (∀ r g b a : α, SetShaderColor s r g b a =
      [⟨"bUseTexture", .intVal 0⟩, ⟨"objectColor", .vec4Val (r, g, b, a)⟩]) ∧
    (∀ tag : String, SetShaderTexture s tag =
      [⟨"bUseTexture", .intVal 1⟩,
       ⟨"objectTexture", .sampler2DVal (FindTextureSlot s tag)⟩]) ∧
    (∀ (st : ShaderState α) (ops : List (ColorOrTexture α)) (op : ColorOrTexture α),
      ops.getLast? = some op →
      applyWrites st (ops.flatMap (runColorTexture s)) "bUseTexture" =
        some (.intVal (flagAfter op))) := by
  refine ⟨fun r g b a => by simp [SetShaderColor, hs],
          fun tag => by simp [SetShaderTexture, hs], ?_⟩
  intro st ops op hlast
  have hne : ops ≠ [] := by
    rintro rfl
    simp at hlast
  have hop : ops.getLast hne = op := by
    rw [List.getLast?_eq_getLast ops hne] at hlast
    exact Option.some.inj hlast
  have hdecomp : ops = ops.dropLast ++ [ops.getLast hne] :=
    (List.dropLast_append_getLast hne).symm
  rw [hdecomp, List.flatMap_append, applyWrites_append, hop]
  cases op with
  | color r g b a =>
      simp [runColorTexture, SetShaderColor, hs, applyWrites, applyWrite, flagAfter]
  | texture tag =>
      simp [runColorTexture, SetShaderTexture, hs, applyWrites, applyWrite, flagAfter]

/-- C9 witness: on the sample state, the interleaving
`SetShaderTexture "wood"; SetShaderColor(1,0,0,1)` leaves
`bUseTexture = 0` (the color call came last), applying the theorem at a
concrete operation list. -/
theorem C9_useTexture_lastWins_witness :
    applyWrites emptyShader
        ([ColorOrTexture.texture "wood",
          ColorOrTexture.color 1 0 0 1].flatMap (runColorTexture sampleSM))
        "bUseTexture" = some (.intVal 0) :=
  (C9_useTexture_lastWins sampleSM rfl).2.2 emptyShader
    [ColorOrTexture.texture "wood", ColorOrTexture.color 1 0 0 1]
    (ColorOrTexture.color 1 0 0 1) rfl

/-- C3: for all scale, per-axis rotation-degree and position inputs (and
any scalar field with any cosine/sine functions, covering the C float
library's), `SetTransformations` with a non-NULL shader manager pushes
into the `"model"` uniform exactly the matrix
`Translation * RotationZ * RotationY * RotationX * Scale`, where each
rotation factor is the textbook rotation matrix about its axis built
from the angle converted from degrees to radians.  Determinism is
immediate: the write list is a function of the inputs. -/
theorem C3_setTransformations {α : Type} [Field α] (cosf sinf : α → α) (piv : α)
    (s : SceneManager α) (scaleXYZ : α × α × α)
    (XrotationDegrees YrotationDegrees ZrotationDegrees : α)
    (positionXYZ : α × α × α) (hs : s.hasShaderManager = true) :
    SetTransformations cosf sinf piv s scaleXYZ
        XrotationDegrees YrotationDegrees ZrotationDegrees positionXYZ =
      [⟨"model", .mat4Val
        (glmTranslate positionXYZ *
          specRotZ cosf sinf (radians piv ZrotationDegrees) *
          specRotY cosf sinf (radians piv YrotationDegrees) *
          specRotX cosf sinf (radians piv XrotationDegrees) *
          glmScale scaleXYZ)⟩] := by
  simp only [SetTransformations, hs, if_true]
  rw [glmRotate_unitX, glmRotate_unitY, glmRotate_unitZ]

/-- C3 witness: the theorem applied at a concrete scalar field (ℚ),
concrete trig functions and the spec's example inputs
scale (2,1,1), rotation (0°, 90°, 0°), position (1,0,0) on the sample
state. -/
theorem C3_setTransformations_witness :
    SetTransformations (fun _ => 0) (fun _ => 1) 3 sampleSM (2, 1, 1)
        0 90 0 (1, 0, 0) =
      [⟨"model", .mat4Val
        (glmTranslate (1, 0, 0) *
          specRotZ (fun _ => 0) (fun _ => 1) (radians 3 0) *
          specRotY (fun _ => 0) (fun _ => 1) (radians 3 90) *
          specRotX (fun _ => 0) (fun _ => 1) (radians 3 0) *
          glmScale (2, 1, 1))⟩] :=
  C3_setTransformations (fun _ => 0) (fun _ => 1) 3 sampleSM (2, 1, 1)
    0 90 0 (1, 0, 0) rfl

end CS330
